import Mathlib

/-
  Verification development for the SceneManager of the
  SNHU CS-330 final-project scene (SceneManager.cpp).

  The C++ class is shallowly embedded:
  * `OBJECT_MATERIAL` / `TEXTURE_ID` mirror the record types used by the
    registry; colour and scalar fields are modelled over `ℚ` (every literal
    in the source is a small decimal), the transform composer over `ℝ`.
  * member state (`m_objectMaterials`, `m_textureIDs` together with
    `m_loadedTextures`) is passed explicitly as lists; the `m_loadedTextures`
    counter is the list length.
  * calls into the external shader interface are modelled as an explicit
    write log (`ShaderWrite`); a call made through a null
    `m_pShaderManager` pointer is modelled as `Except.error ()`.
  * external collaborators (stb_image decoding, glGenTextures) are
    parameters: a `decode : String → Option DecodedImage` function and a
    `gen : Nat → Nat` source of fresh texture ids.
-/

namespace SceneMgr

/-- Component triple used for glm::vec3 values (colours, positions, scales). -/
structure Vec3 (α : Type) where
  x : α
  y : α
  z : α
deriving DecidableEq

/-- The OBJECT_MATERIAL record of SceneManager.h, as used by the source:
tag, ambient colour/strength, diffuse and specular colours, shininess. -/
structure OBJECT_MATERIAL where
  ambientColor : Vec3 ℚ
  ambientStrength : ℚ
  diffuseColor : Vec3 ℚ
  specularColor : Vec3 ℚ
  shininess : ℚ
  tag : String
deriving DecidableEq

/-- The while loop of `SceneManager::FindMaterial`: scan for the first entry
whose tag matches; on a match copy ONLY the diffuseColor, specularColor and
shininess fields into the in-out `material` argument (the source never writes
ambientColor or ambientStrength); on no match the argument is untouched. -/
def findMaterialLoop : List OBJECT_MATERIAL → String → OBJECT_MATERIAL → OBJECT_MATERIAL
  | [], _, material => material
  | m :: rest, tag, material =>
    if m.tag = tag then
      { material with
          diffuseColor := m.diffuseColor
          specularColor := m.specularColor
          shininess := m.shininess }
    else
      findMaterialLoop rest tag material

/-- `SceneManager::FindMaterial(tag, material)`: returns `false` when the
material table is empty, otherwise runs the scan loop and returns `true`
unconditionally (the result flag does not depend on whether a tag matched).
The returned pair is (the C++ return value, the final value of the in-out
`material` argument). -/
def FindMaterial (mats : List OBJECT_MATERIAL) (tag : String)
    (material : OBJECT_MATERIAL) : Bool × OBJECT_MATERIAL :=
  if mats.length = 0 then
    (false, material)
  else
    (true, findMaterialLoop mats tag material)

/-- stoneMAT literal from `SceneManager::DefineObjectMaterials`. -/
def stoneMAT : OBJECT_MATERIAL :=
  { ambientColor := ⟨0.4, 0.4, 0.4⟩
    ambientStrength := 1.0
    diffuseColor := ⟨0.8, 0.8, 0.8⟩
    specularColor := ⟨0.4, 0.4, 0.4⟩
    shininess := 5.0
    tag := "stoneMAT" }

/-- metalMAT literal from `SceneManager::DefineObjectMaterials`. -/
def metalMAT : OBJECT_MATERIAL :=
  { ambientColor := ⟨0.1, 0.1, 0.1⟩
    ambientStrength := 1.0
    diffuseColor := ⟨0.4, 0.4, 0.4⟩
    specularColor := ⟨0.8, 0.8, 0.8⟩
    shininess := 15.0
    tag := "metalMAT" }

/-- woodMaterial literal from `SceneManager::DefineObjectMaterials`. -/
def woodMaterial : OBJECT_MATERIAL :=
  { ambientColor := ⟨0.3, 0.25, 0.1⟩
    ambientStrength := 0.8
    diffuseColor := ⟨0.6, 0.5, 0.2⟩
    specularColor := ⟨0.1, 0.2, 0.2⟩
    shininess := 5.0
    tag := "woodMAT" }

/-- rubberMaterial literal from `SceneManager::DefineObjectMaterials`. -/
def rubberMaterial : OBJECT_MATERIAL :=
  { ambientColor := ⟨0.05, 0.05, 0.05⟩
    ambientStrength := 0.6
    diffuseColor := ⟨0.1, 0.1, 0.1⟩
    specularColor := ⟨0.05, 0.05, 0.05⟩
    shininess := 1.0
    tag := "rubberMAT" }

/-- `SceneManager::DefineObjectMaterials`: pushes the four scene materials
onto `m_objectMaterials` in source order (stone, metal, wood, rubber). -/
def DefineObjectMaterials (mats : List OBJECT_MATERIAL) : List OBJECT_MATERIAL :=
  mats ++ [stoneMAT, metalMAT, woodMaterial, rubberMaterial]

/-- One entry of the `m_textureIDs` array: a GPU texture handle (a GLuint,
modelled as `Nat`) and its tag. The slot of an entry is its position. -/
structure TEXTURE_ID where
  ID : Nat
  tag : String
deriving DecidableEq

/-- Result of the external stb_image decoder for one image
(`stbi_load` output: dimensions and channel count). -/
structure DecodedImage where
  width : Int
  height : Int
  channels : Int
deriving DecidableEq

/-- `SceneManager::CreateGLTexture(filename, tag)`.
`image` is the decoder's result for the file (`none` = stbi_load failed),
`newID` the handle produced by glGenTextures. On a successful decode the
source uploads the pixels when the channel count is 3 (RGB) or 4 (RGBA) and
then appends `{ID, tag}` at index `m_loadedTextures`, incrementing the
counter; any other channel count returns false before the registration
lines; a failed decode returns false. Returns (C++ return value, new
registry). -/
def CreateGLTexture (image : Option DecodedImage) (newID : Nat) (tag : String)
    (st : List TEXTURE_ID) : Bool × List TEXTURE_ID :=
  match image with
  | some img =>
    if img.channels = 3 ∨ img.channels = 4 then
      (true, st ++ [{ ID := newID, tag := tag }])
    else
      (false, st)
  | none => (false, st)

/-- The while loop of `SceneManager::FindTextureID`: first entry whose tag
matches yields its ID (GLuint converted to int); otherwise the initial -1. -/
def FindTextureID (st : List TEXTURE_ID) (tag : String) : Int :=
  match st with
  | [] => -1
  | e :: rest => if e.tag = tag then (e.ID : Int) else FindTextureID rest tag

/-- The while loop of `SceneManager::FindTextureSlot` with the running
`index` made explicit: first entry whose tag matches yields its index;
otherwise the initial -1. -/
def findSlotFrom (st : List TEXTURE_ID) (tag : String) (index : Nat) : Int :=
  match st with
  | [] => -1
  | e :: rest => if e.tag = tag then (index : Int) else findSlotFrom rest tag (index + 1)

/-- `SceneManager::FindTextureSlot(tag)`: scan from index 0. -/
def FindTextureSlot (st : List TEXTURE_ID) (tag : String) : Int :=
  findSlotFrom st tag 0

/-- A sequence of `CreateGLTexture` calls, one per (filename, tag) pair, as
`LoadSceneTextures` performs them; `decode` is the external image decoder and
`gen k` the handle produced by the k-th glGenTextures call. -/
def registerAll (decode : String → Option DecodedImage) (gen : Nat → Nat) :
    List (String × String) → Nat → List TEXTURE_ID → List TEXTURE_ID
  | [], _, st => st
  | (path, tag) :: rest, k, st =>
    registerAll decode gen rest (k + 1) (CreateGLTexture (decode path) (gen k) tag st).2

/-- The registry entries a fully successful run of `registerAll` appends. -/
def mkEntries (gen : Nat → Nat) : List (String × String) → Nat → List TEXTURE_ID
  | [], _ => []
  | (_, tag) :: rest, k => { ID := gen k, tag := tag } :: mkEntries gen rest (k + 1)

/-- The (filename, tag) pairs of `SceneManager::LoadSceneTextures`, in
source order. -/
def sceneTextureFiles : List (String × String) :=
  [("textures/asphalt-floor.png", "floor"),
   ("textures/concrete-stones.png", "atlas-stone"),
   ("textures/concrete-walls.png", "walls"),
   ("textures/rubber-bench.png", "bench"),
   ("textures/metal-beams.png", "metal"),
   ("textures/wood-base.png", "wood"),
   ("textures/dumbbells.png", "dbell")]

/-- `SceneManager::LoadSceneTextures`: the seven `CreateGLTexture` calls in
source order, starting from the given registry state. (The final
`BindGLTextures` call touches only GPU binding state, not the registry.) -/
def LoadSceneTextures (decode : String → Option DecodedImage) (gen : Nat → Nat)
    (st : List TEXTURE_ID) : List TEXTURE_ID :=
  registerAll decode gen sceneTextureFiles 0 st

/-- Modelled from the spec: the fixed number of texture units the target
supports ("up to 16 slots" per the `BindGLTextures` comment; the
`m_textureIDs` array is declared in SceneManager.h, which is not among the
sources, with this capacity). -/
def maxTextureUnits : Nat := 16

/-- A GPU-side texture call issued by `DestroyGLTextures`
(the loop body could in principle generate or delete). -/
inductive GLCall where
  | genTextures
  | deleteTextures
deriving DecidableEq

/-- `SceneManager::DestroyGLTextures`: for every registered entry it calls
`glGenTextures(1, &m_textureIDs[i].ID)` — overwriting the stored handle with
a freshly generated id — and nothing else (in particular no
glDeleteTextures). `gen i` is the id produced by the i-th glGenTextures
call; the result is the new registry plus the log of GPU calls issued. -/
def DestroyGLTextures (gen : Nat → Nat) : List TEXTURE_ID → List TEXTURE_ID × List GLCall
  | [] => ([], [])
  | e :: rest =>
    let r := DestroyGLTextures (fun n => gen (n + 1)) rest
    ({ e with ID := gen 0 } :: r.1, GLCall.genTextures :: r.2)

/-- 4x4 model matrices, over the real numbers (the idealisation of the
source's float arithmetic). -/
abbrev Mat4 := Matrix (Fin 4) (Fin 4) ℝ

/-- `glm::radians`: degrees to radians. -/
noncomputable def glmRadians (degrees : ℝ) : ℝ :=
  degrees * (Real.pi / 180)

/-- `glm::scale(s)`: diagonal scaling matrix. -/
noncomputable def glmScale (s : Vec3 ℝ) : Mat4 :=
  !![s.x, 0, 0, 0;
     0, s.y, 0, 0;
     0, 0, s.z, 0;
     0, 0, 0, 1]

/-- `glm::rotate(angle, vec3(1,0,0))`: rotation about the X axis. -/
noncomputable def glmRotateX (angle : ℝ) : Mat4 :=
  !![1, 0, 0, 0;
     0, Real.cos angle, -Real.sin angle, 0;
     0, Real.sin angle, Real.cos angle, 0;
     0, 0, 0, 1]

/-- `glm::rotate(angle, vec3(0,1,0))`: rotation about the Y axis. -/
noncomputable def glmRotateY (angle : ℝ) : Mat4 :=
  !![Real.cos angle, 0, Real.sin angle, 0;
     0, 1, 0, 0;
     -Real.sin angle, 0, Real.cos angle, 0;
     0, 0, 0, 1]

/-- `glm::rotate(angle, vec3(0,0,1))`: rotation about the Z axis. -/
noncomputable def glmRotateZ (angle : ℝ) : Mat4 :=
  !![Real.cos angle, -Real.sin angle, 0, 0;
     Real.sin angle, Real.cos angle, 0, 0;
     0, 0, 1, 0;
     0, 0, 0, 1]

/-- `glm::translate(p)`: identity with translation column p. -/
noncomputable def glmTranslate (p : Vec3 ℝ) : Mat4 :=
  !![1, 0, 0, p.x;
     0, 1, 0, p.y;
     0, 0, 1, p.z;
     0, 0, 0, 1]

/-- One named-uniform write into the external shader interface, mirroring
the ShaderManager setter that performs it. -/
inductive ShaderWrite where
  | mat4Value (name : String) (value : Mat4)
  | intValue (name : String) (value : Int)
  | vec4Value (name : String) (r g b a : ℚ)
  | vec3Value (name : String) (value : Vec3 ℚ)
  | vec2Value (name : String) (u v : ℚ)
  | floatValue (name : String) (value : ℚ)
  | boolValue (name : String) (value : Bool)
  | sampler2DValue (name : String) (value : Int)

/-- `SceneManager::SetTransformations`: builds scale, per-axis rotation
(degrees converted by glm::radians) and translation matrices, composes
`modelView = translation * rotationZ * rotationY * rotationX * scale`, and —
when `m_pShaderManager` is non-null — writes it to the "model" uniform.
`shaderAttached` models the nullness of `m_pShaderManager`; the result is
the list of uniform writes performed. -/
noncomputable def SetTransformations (shaderAttached : Bool) (scaleXYZ : Vec3 ℝ)
    (XrotationDegrees YrotationDegrees ZrotationDegrees : ℝ)
    (positionXYZ : Vec3 ℝ) : List ShaderWrite :=
  let scale := glmScale scaleXYZ
  let rotationX := glmRotateX (glmRadians XrotationDegrees)
  let rotationY := glmRotateY (glmRadians YrotationDegrees)
  let rotationZ := glmRotateZ (glmRadians ZrotationDegrees)
  let translation := glmTranslate positionXYZ
  let modelView := translation * rotationZ * rotationY * rotationX * scale
  if shaderAttached then
    [ShaderWrite.mat4Value "model" modelView]
  else
    []

/-- `SceneManager::SetShaderColor`: when the shader is attached, disables
texturing (`setIntValue(bUseTexture, false)`, the C++ bool converting to
int 0) and writes the colour. -/
def SetShaderColor (shaderAttached : Bool) (r g b a : ℚ) : List ShaderWrite :=
  if shaderAttached then
    [ShaderWrite.intValue "bUseTexture" 0,
     ShaderWrite.vec4Value "objectColor" r g b a]
  else
    []

/-- `SceneManager::SetShaderTexture`: when the shader is attached, enables
texturing (`setIntValue(bUseTexture, true)`, int 1) and passes the result of
`FindTextureSlot` — whatever it is — to the sampler uniform. -/
def SetShaderTexture (shaderAttached : Bool) (st : List TEXTURE_ID)
    (textureTag : String) : List ShaderWrite :=
  if shaderAttached then
    [ShaderWrite.intValue "bUseTexture" 1,
     ShaderWrite.sampler2DValue "objectTexture" (FindTextureSlot st textureTag)]
  else
    []

/-- `SceneManager::SetTextureUVScale`: when the shader is attached, writes
the UV scale pair. -/
def SetTextureUVScale (shaderAttached : Bool) (u v : ℚ) : List ShaderWrite :=
  if shaderAttached then
    [ShaderWrite.vec2Value "UVscale" u v]
  else
    []

/-- `SceneManager::SetShaderMaterial`: guarded only by the material table
being non-empty — there is NO null check on `m_pShaderManager` in this
method. When `FindMaterial` reports success the three setter calls go
straight through the pointer: with a null shader interface that is a null
dereference, modelled as `Except.error ()`. `uninit` is the value of the
default-constructed local `OBJECT_MATERIAL material` before the call. -/
def SetShaderMaterial (shaderAttached : Bool) (mats : List OBJECT_MATERIAL)
    (materialTag : String) (uninit : OBJECT_MATERIAL) :
    Except Unit (List ShaderWrite) :=
  if 0 < mats.length then
    let r := FindMaterial mats materialTag uninit
    if r.1 then
      if shaderAttached then
        Except.ok
          [ShaderWrite.vec3Value "material.diffuseColor" r.2.diffuseColor,
           ShaderWrite.vec3Value "material.specularColor" r.2.specularColor,
           ShaderWrite.floatValue "material.shininess" r.2.shininess]
      else
        Except.error ()
    else
      Except.ok []
  else
    Except.ok []

/-- `SceneManager::SetupSceneLights`: the write log of the method's eleven
unconditional shader calls (lighting enable, the two point lights' fields,
and their bActive flags), in source order. -/
def SetupSceneLights : List ShaderWrite :=
  [ShaderWrite.boolValue "bUseLighting" true,
   ShaderWrite.vec3Value "pointLights[0].position" ⟨16.0, 25.0, 1.5⟩,
   ShaderWrite.vec3Value "pointLights[0].ambient" ⟨0.35, 0.35, 0.35⟩,
   ShaderWrite.vec3Value "pointLights[0].diffuse" ⟨0.7, 0.7, 0.8⟩,
   ShaderWrite.vec3Value "pointLights[0].specular" ⟨0.5, 0.5, 0.6⟩,
   ShaderWrite.boolValue "pointLights[0].bActive" true,
   ShaderWrite.vec3Value "pointLights[1].position" ⟨-14.0, 25.0, -10.0⟩,
   ShaderWrite.vec3Value "pointLights[1].ambient" ⟨0.35, 0.35, 0.35⟩,
   ShaderWrite.vec3Value "pointLights[1].diffuse" ⟨0.7, 0.7, 0.8⟩,
   ShaderWrite.vec3Value "pointLights[1].specular" ⟨0.5, 0.5, 0.6⟩,
   ShaderWrite.boolValue "pointLights[1].bActive" true]

/-- The last boolean value written to a given uniform name in a write log
(`none` if that name is never written as a boolean). -/
def lastBoolWrite : List ShaderWrite → String → Option Bool
  | [], _ => none
  | w :: rest, name =>
    match lastBoolWrite rest name with
    | some b => some b
    | none =>
      match w with
      | ShaderWrite.boolValue n b => if n = name then some b else none
      | _ => none

/-- The bActive uniform names of the (up to four) point lights the shader
interface exposes. -/
def lightActiveNames : List String :=
  ["pointLights[0].bActive", "pointLights[1].bActive",
   "pointLights[2].bActive", "pointLights[3].bActive"]

/-- Number of point lights a write log leaves active. -/
def activeLightCount (writes : List ShaderWrite) : Nat :=
  (lightActiveNames.filter (fun n => lastBoolWrite writes n = some true)).length

/-- `SceneManager::PrepareScene` from the initial empty state: runs
`LoadSceneTextures` (the texture registry), `DefineObjectMaterials` (the
material table) and `SetupSceneLights` (the light uniform writes). The
four mesh loads touch only the mesh provider. Result: (texture registry,
material table, light write log). -/
def PrepareScene (decode : String → Option DecodedImage) (gen : Nat → Nat) :
    List TEXTURE_ID × List OBJECT_MATERIAL × List ShaderWrite :=
  (LoadSceneTextures decode gen [], DefineObjectMaterials [], SetupSceneLights)

/-! ### Helper lemmas -/

/-- The scan loop of FindMaterial leaves its in-out argument untouched when
no entry's tag matches. -/
theorem findMaterialLoop_eq_of_no_tag (mats : List OBJECT_MATERIAL) (tag : String)
    (material : OBJECT_MATERIAL) (h : ∀ m ∈ mats, m.tag ≠ tag) :
    findMaterialLoop mats tag material = material := by
  induction mats with
  | nil => rfl
  | cons m rest ih =>
    rw [findMaterialLoop, if_neg (h m (List.mem_cons_self m rest))]
    exact ih fun x hx => h x (List.mem_cons_of_mem m hx)

/-- On a non-empty table FindMaterial's flag is true, regardless of the tag. -/
theorem findMaterial_fst_of_ne_nil (mats : List OBJECT_MATERIAL) (h : mats ≠ [])
    (tag : String) (material : OBJECT_MATERIAL) :
    (FindMaterial mats tag material).1 = true := by
  rw [FindMaterial, if_neg (by simpa using h)]

/-- A caller-supplied stand-in for the default-constructed local
`OBJECT_MATERIAL` (all fields zeroed). -/
def zeroMaterial : OBJECT_MATERIAL :=
  { ambientColor := ⟨0, 0, 0⟩
    ambientStrength := 0
    diffuseColor := ⟨0, 0, 0⟩
    specularColor := ⟨0, 0, 0⟩
    shininess := 0
    tag := "" }

/-! ### Claim C1 -/

/-- Claim C1: `FindMaterial(tag, material)` returns false iff the material
table is empty; when the table is non-empty it returns true for every tag,
and if no entry's tag matches, the in-out material argument is left
unwritten. -/
theorem findMaterial_notFound_iff_empty_table (mats : List OBJECT_MATERIAL)
    (tag : String) (material : OBJECT_MATERIAL) :
    ((FindMaterial mats tag material).1 = false ↔ mats = [])
    ∧ (mats ≠ [] → (∀ m ∈ mats, m.tag ≠ tag) →
        FindMaterial mats tag material = (true, material)) := by
  constructor
  · cases mats with
    | nil => simp [FindMaterial]
    | cons m rest => simp [FindMaterial]
  · intro hne hniss
    rw [FindMaterial, if_neg (by simpa using hne),
        findMaterialLoop_eq_of_no_tag mats tag material hniss]

/-- Witness for C1: a one-entry table queried with a tag that matches no
entry still reports success and leaves the output untouched. -/
theorem findMaterial_notFound_iff_empty_table_witness :
    ([stoneMAT] ≠ ([] : List OBJECT_MATERIAL))
    ∧ FindMaterial [stoneMAT] "no-such-tag" zeroMaterial = (true, zeroMaterial) :=
  ⟨by simp,
   (findMaterial_notFound_iff_empty_table [stoneMAT] "no-such-tag" zeroMaterial).2
     (by simp) (by decide)⟩

/-! ### Claim C2 -/

/-- Counterexample for C2: looking up "stoneMAT" right after
DefineObjectMaterials does NOT return the defined values in all five
fields — ambientColor and ambientStrength keep the caller's prior (here
zeroed) values, differing from the (0.4,0.4,0.4) / 1.0 passed at
definition time. -/
theorem findMaterial_ambient_fields_cex :
    stoneMAT ∈ DefineObjectMaterials []
    ∧ (FindMaterial (DefineObjectMaterials []) stoneMAT.tag zeroMaterial).1 = true
    ∧ (FindMaterial (DefineObjectMaterials []) stoneMAT.tag
        zeroMaterial).2.ambientColor ≠ stoneMAT.ambientColor
    ∧ (FindMaterial (DefineObjectMaterials []) stoneMAT.tag
        zeroMaterial).2.ambientStrength ≠ stoneMAT.ambientStrength := by
  refine ⟨by simp [DefineObjectMaterials], rfl, ?_, ?_⟩
  · intro hcontra
    have h : (0 : ℚ) = 0.4 := congrArg Vec3.x hcontra
    norm_num at h
  · intro hcontra
    have h : (0 : ℚ) = 1.0 := hcontra
    norm_num at h

/-- Claim C2 (amended): for every material defined by DefineObjectMaterials,
FindMaterial on its tag succeeds and returns the values passed at definition
time in the three fields the source copies — diffuseColor, specularColor and
shininess — while ambientColor and ambientStrength retain the caller's prior
value. -/
theorem findMaterial_returns_defined_values (m : OBJECT_MATERIAL)
    (hm : m ∈ DefineObjectMaterials []) (prior : OBJECT_MATERIAL) :
    FindMaterial (DefineObjectMaterials []) m.tag prior
      = (true, { prior with
          diffuseColor := m.diffuseColor
          specularColor := m.specularColor
          shininess := m.shininess }) := by
  fin_cases hm <;> rfl

/-- Witness for C2 (amended): the wood material's lookup. -/
theorem findMaterial_returns_defined_values_witness :
    woodMaterial ∈ DefineObjectMaterials []
    ∧ FindMaterial (DefineObjectMaterials []) woodMaterial.tag zeroMaterial
      = (true, { zeroMaterial with
          diffuseColor := woodMaterial.diffuseColor
          specularColor := woodMaterial.specularColor
          shininess := woodMaterial.shininess }) :=
  ⟨by simp [DefineObjectMaterials],
   findMaterial_returns_defined_values woodMaterial (by simp [DefineObjectMaterials])
     zeroMaterial⟩

/-! ### Claim C3 -/

/-- Counterexample for C3: SetShaderMaterial has no null guard; with a
detached (null) shader interface and the non-empty scene material table it
reaches the setter calls through the null pointer (modelled as
`Except.error ()`), rather than silently no-opping. -/
theorem setShaderMaterial_null_deref_cex :
    SetShaderMaterial false (DefineObjectMaterials []) "stoneMAT" zeroMaterial
      = Except.error () := rfl

/-- Claim C3 (amended): with a null shader interface, SetTransformations,
SetShaderColor, SetShaderTexture and SetTextureUVScale perform no shader
writes and return normally; SetShaderMaterial no-ops only when the material
table is empty and otherwise dereferences the null interface. -/
theorem shaderOps_null_guard_amended :
    (∀ (s : Vec3 ℝ) (rx ry rz : ℝ) (p : Vec3 ℝ),
      SetTransformations false s rx ry rz p = [])
    ∧ (∀ r g b a : ℚ, SetShaderColor false r g b a = [])
    ∧ (∀ (st : List TEXTURE_ID) (tag : String), SetShaderTexture false st tag = [])
    ∧ (∀ u v : ℚ, SetTextureUVScale false u v = [])
    ∧ (∀ (tag : String) (uninit : OBJECT_MATERIAL),
        SetShaderMaterial false [] tag uninit = Except.ok [])
    ∧ (∀ (mats : List OBJECT_MATERIAL) (tag : String) (uninit : OBJECT_MATERIAL),
        mats ≠ [] → SetShaderMaterial false mats tag uninit = Except.error ()) := by
  refine ⟨fun _ _ _ _ _ => rfl, fun _ _ _ _ => rfl, fun _ _ => rfl,
    fun _ _ => rfl, fun _ _ => rfl, ?_⟩
  intro mats tag uninit hne
  have h1 : 0 < mats.length := List.length_pos.mpr hne
  have h2 : (FindMaterial mats tag uninit).1 = true :=
    findMaterial_fst_of_ne_nil mats hne tag uninit
  simp [SetShaderMaterial, h1, h2]

/-- Witness for C3 (amended): a null shader with a one-material table. -/
theorem shaderOps_null_guard_amended_witness :
    ([metalMAT] ≠ ([] : List OBJECT_MATERIAL))
    ∧ SetShaderMaterial false [metalMAT] "woodMAT" zeroMaterial = Except.error () :=
  ⟨by simp,
   shaderOps_null_guard_amended.2.2.2.2.2 [metalMAT] "woodMAT" zeroMaterial (by simp)⟩

/-! ### Claim C4 -/

/-- Claim C4: SetTransformations pushes to the "model" uniform exactly the
matrix `Translation(position) * Rz * Ry * Rx * Scale(scale)` with each
rotation angle converted from degrees to radians; sanity-checked on the
spec's reference case, where composing with rotation (90°, 0, 0), identity
scale and zero translation sends the homogeneous unit +Z vector to -Y. -/
theorem setTransformations_model_matrix :
    (∀ (s : Vec3 ℝ) (rx ry rz : ℝ) (p : Vec3 ℝ),
      SetTransformations true s rx ry rz p
        = [ShaderWrite.mat4Value "model"
            (glmTranslate p * glmRotateZ (glmRadians rz) * glmRotateY (glmRadians ry) *
             glmRotateX (glmRadians rx) * glmScale s)])
    ∧ Matrix.mulVec
        (glmTranslate ⟨0, 0, 0⟩ * glmRotateZ (glmRadians 0) * glmRotateY (glmRadians 0) *
         glmRotateX (glmRadians 90) * glmScale ⟨1, 1, 1⟩) ![0, 0, 1, 1]
        = ![0, -1, 0, 1] := by
  refine ⟨fun _ _ _ _ _ => rfl, ?_⟩
  have h90 : glmRadians 90 = Real.pi / 2 := by
    rw [glmRadians]; ring
  have h0 : glmRadians 0 = 0 := by
    rw [glmRadians]; ring
  rw [h90, h0]
  simp only [← Matrix.mulVec_mulVec]
  simp only [glmTranslate, glmScale, glmRotateX, glmRotateY, glmRotateZ,
    Real.cos_pi_div_two, Real.sin_pi_div_two, Real.cos_zero, Real.sin_zero,
    Matrix.cons_mulVec, Matrix.cons_dotProduct, Matrix.dotProduct_empty,
    Matrix.empty_mulVec]
  norm_num

/-! ### Texture-registry helper lemmas -/

/-- A decode with 3 or 4 channels registers: append the new entry, report true. -/
theorem createGLTexture_success (img : DecodedImage)
    (hch : img.channels = 3 ∨ img.channels = 4) (newID : Nat) (tag : String)
    (st : List TEXTURE_ID) :
    CreateGLTexture (some img) newID tag st = (true, st ++ [{ ID := newID, tag := tag }]) := by
  simp only [CreateGLTexture, if_pos hch]

/-- When every file decodes with 3 or 4 channels, a registration sequence
appends exactly its entries, in order. -/
theorem registerAll_eq_append (decode : String → Option DecodedImage) (gen : Nat → Nat) :
    ∀ (files : List (String × String)) (k : Nat) (st : List TEXTURE_ID),
      (∀ pt ∈ files, ∃ img, decode pt.1 = some img ∧
        (img.channels = 3 ∨ img.channels = 4)) →
      registerAll decode gen files k st = st ++ mkEntries gen files k
  | [], _, st, _ => by simp [registerAll, mkEntries]
  | (path, tag) :: rest, k, st, h => by
    obtain ⟨img, hdec, hch⟩ := h (path, tag) (List.mem_cons_self _ _)
    rw [registerAll, mkEntries, hdec, createGLTexture_success img hch]
    show registerAll decode gen rest (k + 1) (st ++ [{ ID := gen k, tag := tag }])
      = st ++ { ID := gen k, tag := tag } :: mkEntries gen rest (k + 1)
    have hrec := registerAll_eq_append decode gen rest (k + 1)
      (st ++ [{ ID := gen k, tag := tag }])
      (fun q hq => h q (List.mem_cons_of_mem _ hq))
    rw [hrec]
    simp

/-- The tags of the appended entries are the tags of the file list, in order. -/
theorem mkEntries_map_tag (gen : Nat → Nat) :
    ∀ (files : List (String × String)) (k : Nat),
      (mkEntries gen files k).map TEXTURE_ID.tag = files.map Prod.snd
  | [], _ => rfl
  | (_, tag) :: rest, k => by
    rw [mkEntries]
    simp [mkEntries_map_tag gen rest (k + 1)]

/-- With pairwise distinct tags, the slot scan started at `idx` finds the
i-th entry's tag at `idx + i`. -/
theorem findSlotFrom_of_nodup :
    ∀ (entries : List TEXTURE_ID) (idx i : Nat) (hi : i < entries.length),
      (entries.map TEXTURE_ID.tag).Nodup →
      findSlotFrom entries (entries[i].tag) idx = (idx + i : Nat)
  | [], _, i, hi, _ => absurd hi (Nat.not_lt_zero i)
  | e :: rest, idx, 0, _, _ => by
    simp [findSlotFrom]
  | e :: rest, idx, j + 1, hi, hnd => by
    have hj : j < rest.length := Nat.lt_of_succ_lt_succ hi
    have hmem : (rest[j]).tag ∈ rest.map TEXTURE_ID.tag :=
      List.mem_map_of_mem TEXTURE_ID.tag (List.getElem_mem _)
    have hne : e.tag ≠ (rest[j]).tag := by
      intro hc
      rw [List.map_cons, List.nodup_cons] at hnd
      exact hnd.1 (hc ▸ hmem)
    rw [List.getElem_cons_succ, findSlotFrom, if_neg hne,
      findSlotFrom_of_nodup rest (idx + 1) j (Nat.lt_of_succ_lt_succ hi)
        (by rw [List.map_cons, List.nodup_cons] at hnd; exact hnd.2)]
    push_cast
    ring

/-- The slot scan misses every tag not in the registry, whatever the start
index, and keeps the initial -1. -/
theorem findSlotFrom_eq_neg_one :
    ∀ (st : List TEXTURE_ID) (tag : String) (idx : Nat),
      tag ∉ st.map TEXTURE_ID.tag → findSlotFrom st tag idx = -1
  | [], _, _, _ => rfl
  | e :: rest, tag, idx, h => by
    simp only [List.map_cons, List.mem_cons, not_or] at h
    rw [findSlotFrom, if_neg (fun hc => h.1 hc.symm),
      findSlotFrom_eq_neg_one rest tag (idx + 1) h.2]

/-- The ID scan misses every tag not in the registry and keeps the
initial -1. -/
theorem findTextureID_eq_neg_one :
    ∀ (st : List TEXTURE_ID) (tag : String),
      tag ∉ st.map TEXTURE_ID.tag → FindTextureID st tag = -1
  | [], _, _ => rfl
  | e :: rest, tag, h => by
    simp only [List.map_cons, List.mem_cons, not_or] at h
    rw [FindTextureID, if_neg (fun hc => h.1 hc.symm),
      findTextureID_eq_neg_one rest tag h.2]

/-! ### Claim C5 -/

/-- Claim C5: a decoded image whose channel count is neither 3 nor 4 makes
CreateGLTexture return false and leaves the registry — count and entries —
exactly as it was. -/
theorem createGLTexture_rejects_unsupported_channels (img : DecodedImage)
    (h3 : img.channels ≠ 3) (h4 : img.channels ≠ 4) (newID : Nat) (tag : String)
    (st : List TEXTURE_ID) :
    CreateGLTexture (some img) newID tag st = (false, st) := by
  simp only [CreateGLTexture]
  rw [if_neg]
  rintro (h | h)
  · exact h3 h
  · exact h4 h

/-- Witness for C5: a 2-channel (gray+alpha) image is rejected without
touching a registry that already holds one texture. -/
theorem createGLTexture_rejects_unsupported_channels_witness :
    ((2 : Int) ≠ 3) ∧ ((2 : Int) ≠ 4)
    ∧ CreateGLTexture (some { width := 8, height := 8, channels := 2 }) 5 "gray"
        [{ ID := 1, tag := "floor" }]
      = (false, [{ ID := 1, tag := "floor" }]) :=
  ⟨by norm_num, by norm_num,
   createGLTexture_rejects_unsupported_channels { width := 8, height := 8, channels := 2 }
     (by norm_num) (by norm_num) 5 "gray" [{ ID := 1, tag := "floor" }]⟩

/-! ### Claim C6 -/

/-- Claim C6: a sequence of successful registrations with pairwise distinct
tags, starting from the empty registry, stores its entries in registration
order — the i-th registered tag sits at slot i — and FindTextureSlot on the
i-th tag returns exactly i. -/
theorem textures_get_sequential_slots (decode : String → Option DecodedImage)
    (gen : Nat → Nat) (files : List (String × String))
    (hvalid : ∀ pt ∈ files, ∃ img, decode pt.1 = some img ∧
      (img.channels = 3 ∨ img.channels = 4))
    (hnodup : (files.map Prod.snd).Nodup)
    (i : Nat) (hi : i < files.length) :
    (registerAll decode gen files 0 []).map TEXTURE_ID.tag = files.map Prod.snd
    ∧ FindTextureSlot (registerAll decode gen files 0 []) (files[i].2) = (i : Int) := by
  rw [registerAll_eq_append decode gen files 0 [] hvalid, List.nil_append]
  have hmap : (mkEntries gen files 0).map TEXTURE_ID.tag = files.map Prod.snd :=
    mkEntries_map_tag gen files 0
  refine ⟨hmap, ?_⟩
  have hlen : (mkEntries gen files 0).length = files.length := by
    have := congrArg List.length hmap
    simpa using this
  have hi' : i < (mkEntries gen files 0).length := hlen ▸ hi
  have htag : (mkEntries gen files 0)[i].tag = files[i].2 := by
    have hb1 : i < ((mkEntries gen files 0).map TEXTURE_ID.tag).length := by simpa using hi'
    have hb2 : i < (files.map Prod.snd).length := by simpa using hi
    have h1 : ((mkEntries gen files 0).map TEXTURE_ID.tag)[i]
        = (files.map Prod.snd)[i] := by
      simp only [hmap]
    simpa using h1
  rw [FindTextureSlot, ← htag,
    findSlotFrom_of_nodup (mkEntries gen files 0) 0 i hi' (hmap ▸ hnodup)]
  simp

/-- Witness for C6: two RGBA registrations; the second tag gets slot 1. -/
theorem textures_get_sequential_slots_witness :
    ((([("a.png", "t0"), ("b.png", "t1")].map Prod.snd)).Nodup)
    ∧ (registerAll (fun _ => some { width := 2, height := 2, channels := 4 })
        (fun n => n + 1) [("a.png", "t0"), ("b.png", "t1")] 0 []).map TEXTURE_ID.tag
      = ["t0", "t1"]
    ∧ FindTextureSlot (registerAll (fun _ => some { width := 2, height := 2, channels := 4 })
        (fun n => n + 1) [("a.png", "t0"), ("b.png", "t1")] 0 []) "t1" = 1 := by
  have h := textures_get_sequential_slots
    (fun _ => some { width := 2, height := 2, channels := 4 }) (fun n => n + 1)
    [("a.png", "t0"), ("b.png", "t1")]
    (fun pt _ => ⟨{ width := 2, height := 2, channels := 4 }, rfl, Or.inr rfl⟩)
    (by simp) 1 (by norm_num)
  exact ⟨by simp, h.1, h.2⟩

/-! ### Claim C7 -/

/-- Claim C7: for a tag absent from the registry, FindTextureSlot and
FindTextureID return the -1 sentinel, and SetShaderTexture (with the shader
attached) still sets bUseTexture to 1 and passes the -1 slot straight to the
sampler uniform. -/
theorem texture_lookup_miss_sentinel (st : List TEXTURE_ID) (tag : String)
    (h : tag ∉ st.map TEXTURE_ID.tag) :
    FindTextureSlot st tag = -1 ∧ FindTextureID st tag = -1
    ∧ SetShaderTexture true st tag
      = [ShaderWrite.intValue "bUseTexture" 1,
         ShaderWrite.sampler2DValue "objectTexture" (-1)] := by
  have h1 : FindTextureSlot st tag = -1 := findSlotFrom_eq_neg_one st tag 0 h
  exact ⟨h1, findTextureID_eq_neg_one st tag h, by rw [SetShaderTexture, if_pos rfl, h1]⟩

/-- Witness for C7: a one-texture registry queried with an unknown tag. -/
theorem texture_lookup_miss_sentinel_witness :
    ("metal" ∉ ([{ ID := 7, tag := "floor" }] : List TEXTURE_ID).map TEXTURE_ID.tag)
    ∧ FindTextureSlot [{ ID := 7, tag := "floor" }] "metal" = -1
    ∧ FindTextureID [{ ID := 7, tag := "floor" }] "metal" = -1
    ∧ SetShaderTexture true [{ ID := 7, tag := "floor" }] "metal"
      = [ShaderWrite.intValue "bUseTexture" 1,
         ShaderWrite.sampler2DValue "objectTexture" (-1)] := by
  have hnot : "metal" ∉ ([{ ID := 7, tag := "floor" }] : List TEXTURE_ID).map TEXTURE_ID.tag := by
    simp
  have h := texture_lookup_miss_sentinel [{ ID := 7, tag := "floor" }] "metal" hnot
  exact ⟨hnot, h.1, h.2.1, h.2.2⟩

/-! ### Claim C8 -/

/-- A decoder whose every file yields a 1x1 RGB (3-channel) image. -/
def rgbDecoder : String → Option DecodedImage :=
  fun _ => some { width := 1, height := 1, channels := 3 }

/-- Seventeen successful registrations with distinct tags — one more than
the 16 texture units the design allows. -/
def seventeenFiles : List (String × String) :=
  [("f00.png", "t00"), ("f01.png", "t01"), ("f02.png", "t02"), ("f03.png", "t03"),
   ("f04.png", "t04"), ("f05.png", "t05"), ("f06.png", "t06"), ("f07.png", "t07"),
   ("f08.png", "t08"), ("f09.png", "t09"), ("f10.png", "t10"), ("f11.png", "t11"),
   ("f12.png", "t12"), ("f13.png", "t13"), ("f14.png", "t14"), ("f15.png", "t15"),
   ("f16.png", "t16")]

/-- Claim C8 fails on the code: CreateGLTexture enforces no cap, so the
seventeenth successful registration is assigned slot index 16 — equal to
maxTextureUnits, not below it — and the registry grows to 17 entries. -/
theorem texture_slot_cap_not_enforced :
    maxTextureUnits = 16
    ∧ (registerAll rgbDecoder (fun n => n) seventeenFiles 0 []).length = 17
    ∧ FindTextureSlot (registerAll rgbDecoder (fun n => n) seventeenFiles 0 []) "t16"
      = (16 : Int) := by
  refine ⟨rfl, rfl, rfl⟩

/-! ### Claim C9 -/

/-- Claim C9: from the initial empty state, when all seven scene images
decode with a supported channel count, PrepareScene leaves the registry with
exactly the seven texture tags in load order, exactly the four material tags
in definition order, and exactly two point lights set active. -/
theorem prepareScene_registry_contents (decode : String → Option DecodedImage)
    (gen : Nat → Nat)
    (hvalid : ∀ pt ∈ sceneTextureFiles, ∃ img, decode pt.1 = some img ∧
      (img.channels = 3 ∨ img.channels = 4)) :
    (PrepareScene decode gen).1.map TEXTURE_ID.tag
      = ["floor", "atlas-stone", "walls", "bench", "metal", "wood", "dbell"]
    ∧ (PrepareScene decode gen).2.1.map OBJECT_MATERIAL.tag
      = ["stoneMAT", "metalMAT", "woodMAT", "rubberMAT"]
    ∧ activeLightCount (PrepareScene decode gen).2.2 = 2 := by
  refine ⟨?_, rfl, rfl⟩
  show (LoadSceneTextures decode gen []).map TEXTURE_ID.tag = _
  rw [LoadSceneTextures, registerAll_eq_append decode gen sceneTextureFiles 0 [] hvalid,
    List.nil_append, mkEntries_map_tag]
  rfl

/-- Witness for C9: an all-RGB decoder. -/
theorem prepareScene_registry_contents_witness :
    (∀ pt ∈ sceneTextureFiles, ∃ img, rgbDecoder pt.1 = some img ∧
      (img.channels = 3 ∨ img.channels = 4))
    ∧ (PrepareScene rgbDecoder (fun n => n)).1.map TEXTURE_ID.tag
      = ["floor", "atlas-stone", "walls", "bench", "metal", "wood", "dbell"]
    ∧ (PrepareScene rgbDecoder (fun n => n)).2.1.map OBJECT_MATERIAL.tag
      = ["stoneMAT", "metalMAT", "woodMAT", "rubberMAT"]
    ∧ activeLightCount (PrepareScene rgbDecoder (fun n => n)).2.2 = 2 := by
  have hvalid : ∀ pt ∈ sceneTextureFiles, ∃ img, rgbDecoder pt.1 = some img ∧
      (img.channels = 3 ∨ img.channels = 4) :=
    fun pt _ => ⟨{ width := 1, height := 1, channels := 3 }, rfl, Or.inl rfl⟩
  have h := prepareScene_registry_contents rgbDecoder (fun n => n) hvalid
  exact ⟨hvalid, h.1, h.2.1, h.2.2⟩

/-! ### Claim C10 -/

/-- The full effect of DestroyGLTextures: each entry keeps its tag but has
its handle overwritten with the next generated id, and the GPU call log is
one glGenTextures per entry — nothing else. -/
theorem destroyGLTextures_spec :
    ∀ (gen : Nat → Nat) (st : List TEXTURE_ID),
      DestroyGLTextures gen st
        = (st.mapIdx (fun i e => { e with ID := gen i }),
           List.replicate st.length GLCall.genTextures)
  | _, [] => rfl
  | gen, e :: rest => by
    rw [DestroyGLTextures, destroyGLTextures_spec (fun n => gen (n + 1)) rest]
    simp [List.mapIdx_cons, List.replicate_succ]

/-- Tags survive an index-dependent rewrite of the ID field. -/
theorem mapIdx_setID_map_tag (gen : Nat → Nat) :
    ∀ (st : List TEXTURE_ID),
      (st.mapIdx (fun i e => { e with ID := gen i })).map TEXTURE_ID.tag
        = st.map TEXTURE_ID.tag := by
  intro st
  induction st generalizing gen with
  | nil => rfl
  | cons e rest ih =>
    rw [List.mapIdx_cons, List.map_cons, List.map_cons, ih (fun n => gen (n + 1))]

/-- Claim C10: DestroyGLTextures keeps the registered-texture count and
every tag, rewrites each stored handle with a freshly generated texture id
(one glGenTextures call per entry), and never issues a texture-deletion
call. -/
theorem destroyGLTextures_frees_nothing (gen : Nat → Nat) (st : List TEXTURE_ID) :
    (DestroyGLTextures gen st).1.length = st.length
    ∧ (DestroyGLTextures gen st).1.map TEXTURE_ID.tag = st.map TEXTURE_ID.tag
    ∧ (DestroyGLTextures gen st).1 = st.mapIdx (fun i e => { e with ID := gen i })
    ∧ (DestroyGLTextures gen st).2 = List.replicate st.length GLCall.genTextures
    ∧ GLCall.deleteTextures ∉ (DestroyGLTextures gen st).2 := by
  rw [destroyGLTextures_spec gen st]
  refine ⟨by simp, mapIdx_setID_map_tag gen st, rfl, rfl, ?_⟩
  intro hmem
  rcases List.eq_of_mem_replicate hmem with h
  exact GLCall.noConfusion h

end SceneMgr
